import Mathlib

/-!
Shallow embedding of the progress-aggregation core of the project
management system: the entity data model (src/models), the notification
manager (src/models/notification.py) and the cascade orchestration
(src/core/manager.py).

Modelling conventions:
* Python floats are modelled as `ℚ`.
* `datetime` / `date` values are modelled as abstract integer instants
  (for `date`, the integer is the ordinal day, so `(d2 - d1).days`
  becomes integer subtraction); `isoformat` / `fromisoformat` form an
  inverse pair and are modelled as the identity on this representation.
* Python dicts keyed by entity id are modelled as insertion-ordered
  association lists (`PM.AList`), matching dict iteration order.
* Statuses are the literal strings used by the source
  (`"未着手"`, `"進行中"`, `"完了"`, ...).
* A function that can raise an exception is modelled in `Option`
  (`none` = exception raised).
All definitions live in the `PM` namespace to avoid clashing with
Mathlib's `AList` and Lean core's `Task`.
-/

namespace PM

/-- Insertion-ordered string-keyed map modelling a Python dict:
`set` overwrites in place when the key exists and appends otherwise,
so `values` enumerates in insertion order exactly as `dict.values()`. -/
abbrev AList (α : Type) : Type := List (String × α)

def AList.get? {α : Type} (m : AList α) (k : String) : Option α :=
  match m with
  | [] => none
  | (k1, v) :: rest => if k1 = k then some v else AList.get? rest k

def AList.set {α : Type} (m : AList α) (k : String) (v : α) : AList α :=
  match m with
  | [] => [(k, v)]
  | (k1, v1) :: rest => if k1 = k then (k1, v) :: rest else (k1, v1) :: AList.set rest k v

def AList.eraseKey {α : Type} (m : AList α) (k : String) : AList α :=
  match m with
  | [] => []
  | (k1, v1) :: rest => if k1 = k then rest else (k1, v1) :: AList.eraseKey rest k

def AList.values {α : Type} (m : AList α) : List α := m.map Prod.snd

/-- Python `round(x, 1)` on the rational model of floats, as round-half-up
to one decimal.  Python's float rounding is round-half-to-even and differs
only at exact decimal midpoints, which none of the verified claims reach. -/
def round1 (x : ℚ) : ℚ := ((⌊10 * x + 1/2⌋ : ℤ) : ℚ) / 10

/-- Python truthiness of `s.strip()` as used by the validators
(`not name.strip()`): true iff every character of `s` is whitespace.
Modelled at the character-list level so that it evaluates by rewriting
(`String.trim` itself is built on reduction-hostile substring primitives). -/
def pyStripEmpty (s : String) : Bool :=
  (s.data.dropWhile Char.isWhitespace).isEmpty

/-! ## Status string constants (src/models/base.py, process.py, phase.py) -/

def TaskStatus.NOT_STARTED : String := "未着手"
def TaskStatus.IN_PROGRESS : String := "進行中"
def TaskStatus.COMPLETED : String := "完了"
def TaskStatus.CANNOT_HANDLE : String := "対応不能"

/-- `TaskStatus.get_all_values()`: the four task status strings. -/
def TaskStatus.get_all_values : List String :=
  [TaskStatus.NOT_STARTED, TaskStatus.IN_PROGRESS, TaskStatus.COMPLETED,
   TaskStatus.CANNOT_HANDLE]

/-- `TaskStatus.is_valid(value)`. -/
def TaskStatus.is_valid (value : String) : Bool :=
  TaskStatus.get_all_values.contains value

def ProjectStatus.NOT_STARTED : String := "未着手"
def ProjectStatus.IN_PROGRESS : String := "進行中"
def ProjectStatus.COMPLETED : String := "完了"
def ProjectStatus.SUSPENDED : String := "中止"
def ProjectStatus.ON_HOLD : String := "保留"

def ProjectStatus.get_all_values : List String :=
  [ProjectStatus.NOT_STARTED, ProjectStatus.IN_PROGRESS, ProjectStatus.COMPLETED,
   ProjectStatus.SUSPENDED, ProjectStatus.ON_HOLD]

def ProjectStatus.is_valid (value : String) : Bool :=
  ProjectStatus.get_all_values.contains value

def ProcessStatus.NOT_STARTED : String := "未着手"
def ProcessStatus.IN_PROGRESS : String := "進行中"
def ProcessStatus.COMPLETED : String := "完了"

def PhaseStatus.NOT_STARTED : String := "未着手"
def PhaseStatus.IN_PROGRESS : String := "進行中"
def PhaseStatus.COMPLETED : String := "完了"

/-! ## Task (src/models/task.py) -/

/-- `StatusChange`: one entry of a task's status history. -/
structure StatusChange where
  id : String
  old_status : String
  new_status : String
  changed_at : Int
  changed_by : String
  comment : String
  deriving Repr, DecidableEq

/-- `StatusChange.__init__`, with the wall clock passed explicitly:
the source uses `datetime.now().timestamp()` as the id and
`datetime.now()` as `changed_at`. -/
def StatusChange.init (now : Int) (old_status new_status changed_by : String) :
    StatusChange :=
  { id := toString now, old_status := old_status, new_status := new_status,
    changed_at := now, changed_by := changed_by, comment := "" }

/-- `Task`: the leaf entity.  Base-entity fields first, then the fields of
`Task.__init__`. -/
structure Task where
  id : String
  name : String
  description : String
  created_at : Int
  updated_at : Int
  status : String
  status_history : List StatusChange
  parent_process_id : Option String
  priority : Int
  estimated_hours : Option ℚ
  actual_hours : Option ℚ
  notes : String
  tags : List String
  deriving Repr, DecidableEq

/-- `Task.__init__(name, description)` (id and clock passed explicitly;
the source draws them from `uuid4()` and `datetime.now()`). -/
def Task.init (id : String) (now : Int) (name : String) (description : String) : Task :=
  { id := id, name := name, description := description, created_at := now,
    updated_at := now, status := TaskStatus.NOT_STARTED,
    status_history := [StatusChange.init now "" TaskStatus.NOT_STARTED "system"],
    parent_process_id := none, priority := 3, estimated_hours := none,
    actual_hours := none, notes := "", tags := [] }

def Task.is_completed (t : Task) : Bool := t.status == TaskStatus.COMPLETED

def Task.is_cannot_handle (t : Task) : Bool := t.status == TaskStatus.CANNOT_HANDLE

/-- `Task.is_actionable()`: not CannotHandle. -/
def Task.is_actionable (t : Task) : Bool := !t.is_cannot_handle

/-- `Task.get_completion_percentage()`. -/
def Task.get_completion_percentage (t : Task) : ℚ :=
  if t.is_completed then 100 else 0

/-- `Task.set_status(new_status, changed_by, comment)`; returns the mutated
task and the success flag. -/
def Task.set_status (t : Task) (now : Int) (new_status changed_by comment : String) :
    Task × Bool :=
  if TaskStatus.is_valid new_status then
    if new_status = t.status then (t, true)
    else
      let change0 := StatusChange.init now t.status new_status changed_by
      let change := if comment ≠ "" then { change0 with comment := comment } else change0
      ({ t with status := new_status, updated_at := now,
                status_history := t.status_history ++ [change] }, true)
  else (t, false)

/-- `Task._validate_additional()`. -/
def Task.validate_additional (t : Task) : Bool :=
  if TaskStatus.is_valid t.status = false then false
  else if ¬(1 ≤ t.priority ∧ t.priority ≤ 5) then false
  else if (match t.estimated_hours with
           | some h => decide (h < 0)
           | none => false) then false
  else if (match t.actual_hours with
           | some h => decide (h < 0)
           | none => false) then false
  else true

/-- `BaseEntity.validate()` specialised to `Task`. -/
def Task.validate (t : Task) : Bool :=
  if pyStripEmpty t.name then false
  else if t.id = "" then false
  else t.validate_additional

/-! ## Process (src/models/process.py) -/

structure Process where
  id : String
  name : String
  description : String
  created_at : Int
  updated_at : Int
  assignee : String
  parent_phase_id : Option String
  start_date : Option Int
  end_date : Option Int
  estimated_hours : Option ℚ
  actual_hours : Option ℚ
  progress : ℚ
  is_progress_manual : Bool
  tasks : List String
  notes : String
  priority : Int
  deriving Repr, DecidableEq

/-- `Process.__init__(name, description, assignee)`. -/
def Process.init (id : String) (now : Int) (name description assignee : String) :
    Process :=
  { id := id, name := name, description := description, created_at := now,
    updated_at := now, assignee := assignee, parent_phase_id := none,
    start_date := none, end_date := none, estimated_hours := none,
    actual_hours := none, progress := 0, is_progress_manual := true,
    tasks := [], notes := "", priority := 3 }

/-- `ProcessManager.create_process(name, assignee, description, phase_id)`:
builds a fresh process and attaches the parent phase id when given. -/
def ProcessManager.create_process (id : String) (now : Int)
    (name assignee description : String) (phase_id : Option String) : Process :=
  let process := Process.init id now name description assignee
  match phase_id with
  | some pid => { process with parent_phase_id := some pid }
  | none => process

/-- `Process.set_progress(progress, is_manual)`. -/
def Process.set_progress (p : Process) (now : Int) (progress : ℚ) (is_manual : Bool) :
    Process × Bool :=
  if 0 ≤ progress ∧ progress ≤ 100 then
    ({ p with progress := progress, is_progress_manual := is_manual,
              updated_at := now }, true)
  else (p, false)

/-- Body of `Process.calculate_progress_from_tasks(task_manager)` over an
explicit task-id list: the source loop collects the resolvable actionable
tasks and counts the completed ones; the accumulator carries
(len(actionable_tasks), completed_tasks). -/
def calc_process_progress (task_ids : List String) (task_manager : AList Task) : ℚ :=
  if task_ids = [] then 0
  else
    let acc := task_ids.foldl (fun (acc : Nat × Nat) task_id =>
      match AList.get? task_manager task_id with
      | some task =>
        if task.is_actionable then
          (acc.1 + 1, if task.is_completed then acc.2 + 1 else acc.2)
        else acc
      | none => acc) (0, 0)
    if acc.1 = 0 then 0
    else round1 (((acc.2 : ℚ) / (acc.1 : ℚ)) * 100)

/-- `Process.calculate_progress_from_tasks(task_manager)`. -/
def Process.calculate_progress_from_tasks (p : Process) (task_manager : AList Task) :
    ℚ :=
  calc_process_progress p.tasks task_manager

/-- `Process.update_progress_from_tasks(task_manager)`. -/
def Process.update_progress_from_tasks (p : Process) (task_manager : AList Task)
    (now : Int) : Process × Bool :=
  if p.is_progress_manual = false then
    p.set_progress now (p.calculate_progress_from_tasks task_manager) false
  else (p, true)

/-- `Process.get_status()`: derived from progress alone. -/
def Process.get_status (p : Process) : String :=
  if p.progress = 0 then ProcessStatus.NOT_STARTED
  else if p.progress = 100 then ProcessStatus.COMPLETED
  else ProcessStatus.IN_PROGRESS

/-- `Process._validate_additional()`. -/
def Process.validate_additional (p : Process) : Bool :=
  if pyStripEmpty p.assignee then false
  else if ¬(0 ≤ p.progress ∧ p.progress ≤ 100) then false
  else if (match p.start_date, p.end_date with
           | some s, some e => decide (e < s)
           | _, _ => false) then false
  else if (match p.estimated_hours with
           | some h => decide (h < 0)
           | none => false) then false
  else if (match p.actual_hours with
           | some h => decide (h < 0)
           | none => false) then false
  else if ¬(1 ≤ p.priority ∧ p.priority ≤ 5) then false
  else true

/-- `BaseEntity.validate()` specialised to `Process`. -/
def Process.validate (p : Process) : Bool :=
  if pyStripEmpty p.name then false
  else if p.id = "" then false
  else p.validate_additional

/-! ## Phase (src/models/phase.py) -/

structure Phase where
  id : String
  name : String
  description : String
  created_at : Int
  updated_at : Int
  parent_project_id : Option String
  end_date : Option Int
  progress : ℚ
  processes : List String
  notes : String
  priority : Int
  milestone : String
  deliverables : List String
  deriving Repr, DecidableEq

/-- `Phase.__init__(name, description)`. -/
def Phase.init (id : String) (now : Int) (name description : String) : Phase :=
  { id := id, name := name, description := description, created_at := now,
    updated_at := now, parent_project_id := none, end_date := none,
    progress := 0, processes := [], notes := "", priority := 3,
    milestone := "", deliverables := [] }

/-- Weight of a child process in `Phase.calculate_progress_from_processes`:
Python `process.estimated_hours if process.estimated_hours else 1.0`
(a `None` or falsy `0.0` value both fall back to 1.0). -/
def Process.progress_weight (pr : Process) : ℚ :=
  match pr.estimated_hours with
  | some h => if h = 0 then 1 else h
  | none => 1

/-- Body of `Phase.calculate_progress_from_processes(process_manager)` over
an explicit process-id list: the source loop accumulates
(total_estimated_hours, weighted_progress) over the resolvable child
processes, then divides, falling back to the simple mean of resolvable
child progress values when the total weight is not positive. -/
def calc_phase_progress (process_ids : List String)
    (process_manager : AList Process) : ℚ :=
  if process_ids = [] then 0
  else
    let acc := process_ids.foldl (fun (acc : ℚ × ℚ) process_id =>
      match AList.get? process_manager process_id with
      | some process =>
        (acc.1 + process.progress_weight, acc.2 + process.progress * process.progress_weight)
      | none => acc) (0, 0)
    if 0 < acc.1 then round1 (acc.2 / acc.1)
    else
      let resolved := process_ids.filterMap (AList.get? process_manager)
      if 0 < resolved.length then
        round1 ((resolved.map Process.progress).sum / (resolved.length : ℚ))
      else 0

/-- `Phase.calculate_progress_from_processes(process_manager)`. -/
def Phase.calculate_progress_from_processes (ph : Phase)
    (process_manager : AList Process) : ℚ :=
  calc_phase_progress ph.processes process_manager

/-- `Phase.update_progress_from_processes(process_manager)`: overwrites
`progress` unconditionally; returns whether the value changed. -/
def Phase.update_progress_from_processes (ph : Phase)
    (process_manager : AList Process) (now : Int) : Phase × Bool :=
  let calculated := ph.calculate_progress_from_processes process_manager
  if ph.progress ≠ calculated then
    ({ ph with progress := calculated, updated_at := now }, true)
  else
    ({ ph with progress := calculated }, false)

/-- `Phase.get_status()`: derived from progress alone. -/
def Phase.get_status (ph : Phase) : String :=
  if ph.progress = 0 then PhaseStatus.NOT_STARTED
  else if ph.progress = 100 then PhaseStatus.COMPLETED
  else PhaseStatus.IN_PROGRESS

/-- `Phase.get_date_range(process_manager)`: derives the phase's date span
from its child processes.  The second argument mirrors the Python
parameter: when the caller passes `None` (as
`Project.calculate_progress_from_phases` does) and the process-id list is
non-empty, the source raises `AttributeError` on
`None.get_process(...)` — modelled as `none`. -/
def Phase.get_date_range (ph : Phase) (process_manager : Option (AList Process)) :
    Option (Option Int × Option Int) :=
  match process_manager with
  | none =>
    if ph.processes = [] then some (none, ph.end_date) else none
  | some m =>
    let resolved := ph.processes.filterMap (AList.get? m)
    let start_dates := resolved.filterMap Process.start_date
    let end_dates := resolved.filterMap Process.end_date
    some (start_dates.min?,
          match end_dates.max? with
          | some e => some e
          | none => ph.end_date)

/-- `Phase._validate_additional()`. -/
def Phase.validate_additional (ph : Phase) : Bool :=
  if ¬(0 ≤ ph.progress ∧ ph.progress ≤ 100) then false
  else if ¬(1 ≤ ph.priority ∧ ph.priority ≤ 5) then false
  else true

/-- `BaseEntity.validate()` specialised to `Phase`. -/
def Phase.validate (ph : Phase) : Bool :=
  if pyStripEmpty ph.name then false
  else if ph.id = "" then false
  else ph.validate_additional

/-! ## Project (src/models/project.py) -/

structure Project where
  id : String
  name : String
  description : String
  created_at : Int
  updated_at : Int
  status : String
  is_status_manual : Bool
  start_date : Option Int
  end_date : Option Int
  progress : ℚ
  phases : List String
  notes : String
  priority : Int
  budget : Option ℚ
  actual_cost : Option ℚ
  manager : String
  stakeholders : List String
  tags : List String
  risk_level : Int
  deriving Repr, DecidableEq

/-- `Project.__init__(name, description)`. -/
def Project.init (id : String) (now : Int) (name description : String) : Project :=
  { id := id, name := name, description := description, created_at := now,
    updated_at := now, status := ProjectStatus.NOT_STARTED,
    is_status_manual := false, start_date := none, end_date := none,
    progress := 0, phases := [], notes := "", priority := 3, budget := none,
    actual_cost := none, manager := "", stakeholders := [], tags := [],
    risk_level := 2 }

/-- `Project.set_status(new_status, is_manual)`. -/
def Project.set_status (proj : Project) (now : Int) (new_status : String)
    (is_manual : Bool) : Project × Bool :=
  if ProjectStatus.is_valid new_status then
    ({ proj with status := new_status, is_status_manual := is_manual,
                 updated_at := now }, true)
  else (proj, false)

/-- `Project.calculate_status_from_phases(phase_manager)`: the source loop
collects the derived status of every resolvable phase (modelled as
`filterMap`), then applies the aggregation rules. -/
def Project.calculate_status_from_phases (proj : Project)
    (phase_manager : AList Phase) : String :=
  if proj.phases = [] then ProjectStatus.NOT_STARTED
  else
    let phase_statuses := proj.phases.filterMap
      (fun phase_id => (AList.get? phase_manager phase_id).map Phase.get_status)
    if phase_statuses = [] then ProjectStatus.NOT_STARTED
    else if phase_statuses.all (fun s => s == PhaseStatus.COMPLETED) then
      ProjectStatus.COMPLETED
    else if phase_statuses.any (fun s => s == PhaseStatus.IN_PROGRESS) then
      ProjectStatus.IN_PROGRESS
    else if phase_statuses.all (fun s => s == PhaseStatus.NOT_STARTED) then
      ProjectStatus.NOT_STARTED
    else ProjectStatus.IN_PROGRESS

/-- `Project.update_status_from_phases(phase_manager)`. -/
def Project.update_status_from_phases (proj : Project)
    (phase_manager : AList Phase) (now : Int) : Project × Bool :=
  if proj.is_status_manual = false then
    let calculated := proj.calculate_status_from_phases phase_manager
    if calculated ≠ proj.status then proj.set_status now calculated false
    else (proj, true)
  else (proj, true)

/-- Body of `Project.calculate_progress_from_phases(phase_manager)` over an
explicit phase-id list.  Each resolvable phase calls
`get_date_range(None)`, which raises (`none`) as soon as the phase has a
non-empty process list; the exception aborts the whole computation.  The
accumulator carries (total_weight, weighted_progress). -/
def calc_project_progress (phase_ids : List String) (phase_manager : AList Phase) :
    Option ℚ :=
  if phase_ids = [] then some 0
  else
    let acc := phase_ids.foldl (fun (acc : Option (ℚ × ℚ)) phase_id =>
      match acc with
      | none => none
      | some a =>
        match AList.get? phase_manager phase_id with
        | some phase =>
          match phase.get_date_range none with
          | none => none
          | some date_range =>
            let duration : Int :=
              match phase.end_date with
              | some e =>
                match date_range.1 with
                | some s => e - s + 1
                | none => 1
              | none => 1
            let weight : Int := max duration 1
            some (a.1 + (weight : ℚ), a.2 + phase.progress * (weight : ℚ))
        | none => some a) (some (0, 0))
    match acc with
    | none => none
    | some a =>
      if 0 < a.1 then some (round1 (a.2 / a.1))
      else
        let resolved := phase_ids.filterMap (AList.get? phase_manager)
        if 0 < resolved.length then
          some (round1 ((resolved.map Phase.progress).sum / (resolved.length : ℚ)))
        else some 0

/-- `Project.calculate_progress_from_phases(phase_manager)`. -/
def Project.calculate_progress_from_phases (proj : Project)
    (phase_manager : AList Phase) : Option ℚ :=
  calc_project_progress proj.phases phase_manager

/-- `Project.update_progress_from_phases(phase_manager)`: `none` when the
underlying computation raises (in that case `self.progress` was not yet
assigned, so the project is unchanged). -/
def Project.update_progress_from_phases (proj : Project)
    (phase_manager : AList Phase) (now : Int) : Option (Project × Bool) :=
  match proj.calculate_progress_from_phases phase_manager with
  | none => none
  | some calculated =>
    if proj.progress ≠ calculated then
      some ({ proj with progress := calculated, updated_at := now }, true)
    else
      some ({ proj with progress := calculated }, false)

/-- `Project._validate_additional()`. -/
def Project.validate_additional (proj : Project) : Bool :=
  if ProjectStatus.is_valid proj.status = false then false
  else if ¬(0 ≤ proj.progress ∧ proj.progress ≤ 100) then false
  else if (match proj.start_date, proj.end_date with
           | some s, some e => decide (e < s)
           | _, _ => false) then false
  else if (match proj.budget with
           | some b => decide (b < 0)
           | none => false) then false
  else if (match proj.actual_cost with
           | some c => decide (c < 0)
           | none => false) then false
  else if ¬(1 ≤ proj.priority ∧ proj.priority ≤ 5) then false
  else if ¬(1 ≤ proj.risk_level ∧ proj.risk_level ≤ 3) then false
  else true

/-- `BaseEntity.validate()` specialised to `Project`. -/
def Project.validate (proj : Project) : Bool :=
  if pyStripEmpty proj.name then false
  else if proj.id = "" then false
  else proj.validate_additional

/-! ## Entity managers (the in-memory dicts of task.py / process.py /
phase.py / project.py).  `update_<entity>` stores the (already mutated)
entity back under its id when it validates and is present. -/

/-- `ProjectManager.update_project(project)`. -/
def ProjectManager.update_project (m : AList Project) (proj : Project) (now : Int) :
    AList Project × Bool :=
  if proj.validate ∧ (AList.get? m proj.id).isSome then
    (AList.set m proj.id { proj with updated_at := now }, true)
  else (m, false)

/-- `PhaseManager.update_phase(phase)`. -/
def PhaseManager.update_phase (m : AList Phase) (ph : Phase) (now : Int) :
    AList Phase × Bool :=
  if ph.validate ∧ (AList.get? m ph.id).isSome then
    (AList.set m ph.id { ph with updated_at := now }, true)
  else (m, false)

/-- `ProcessManager.update_process(process)`. -/
def ProcessManager.update_process (m : AList Process) (pr : Process) (now : Int) :
    AList Process × Bool :=
  if pr.validate ∧ (AList.get? m pr.id).isSome then
    (AList.set m pr.id { pr with updated_at := now }, true)
  else (m, false)

/-! ## Cascade orchestration (src/core/manager.py)

The in-memory state of `ProjectManagementSystem`.  Persistence
(`data_store.save_*`), audit logging and notification generation are I/O
side effects that never modify the four entity maps, and are omitted.
Every `update_*` method of the orchestrator is wrapped by
`@handle_errors(recovery_strategy=NONE)`, which swallows any exception
raised inside the method body and makes the method return `None`; this is
modelled by `Option Bool` results where a raised-and-swallowed exception
matters (`update_project`).  Python mutates entities in place through the
reference stored in the manager dict, so each model step writes the
mutated entity back into the map immediately. -/
structure SystemState where
  projects : AList Project
  phases : AList Phase
  processes : AList Process
  tasks : AList Task
  deriving Repr, DecidableEq

/-- `ProjectManagementSystem.update_project(project)`, applied to a project
held in the project manager (the shape used by the cascade), referenced by
id.  Returns `none` when the method raised and its `@handle_errors`
wrapper swallowed the exception (validation failure raises
`BusinessLogicError`; `update_progress_from_phases` can raise
`AttributeError`). -/
def updateProjectM (s : SystemState) (project_id : String) (now : Int) :
    SystemState × Option Bool :=
  match AList.get? s.projects project_id with
  | none => (s, none)
  | some proj0 =>
    if proj0.validate = false then (s, none)
    else if proj0.is_status_manual = false then
      let proj1 := (proj0.update_status_from_phases s.phases now).1
      let s1 : SystemState := { s with projects := AList.set s.projects project_id proj1 }
      match proj1.update_progress_from_phases s.phases now with
      | none => (s1, none)
      | some (proj2, _) =>
        let s2 : SystemState := { s1 with projects := AList.set s1.projects project_id proj2 }
        let r := ProjectManager.update_project s2.projects proj2 now
        ({ s2 with projects := r.1 }, some r.2)
    else
      let r := ProjectManager.update_project s.projects proj0 now
      ({ s with projects := r.1 }, some r.2)

/-- `ProjectManagementSystem.update_phase(phase)`, applied to a phase held
in the phase manager, referenced by id.  The recursive
`update_project` call's result is discarded by the source. -/
def updatePhaseM (s : SystemState) (phase_id : String) (now : Int) :
    SystemState × Bool :=
  match AList.get? s.phases phase_id with
  | none => (s, false)
  | some ph0 =>
    let ph1 := (ph0.update_progress_from_processes s.processes now).1
    let s1 : SystemState := { s with phases := AList.set s.phases phase_id ph1 }
    let r := PhaseManager.update_phase s1.phases ph1 now
    let s2 : SystemState := { s1 with phases := r.1 }
    if r.2 then
      match ph1.parent_project_id with
      | some project_id => ((updateProjectM s2 project_id now).1, true)
      | none => (s2, true)
    else (s2, false)

/-- `ProjectManagementSystem.update_process(process)`, applied to a process
held in the process manager, referenced by id. -/
def updateProcessM (s : SystemState) (process_id : String) (now : Int) :
    SystemState × Bool :=
  match AList.get? s.processes process_id with
  | none => (s, false)
  | some pr0 =>
    let pr1 := if pr0.is_progress_manual = false then
        (pr0.update_progress_from_tasks s.tasks now).1
      else pr0
    let s1 : SystemState := { s with processes := AList.set s.processes process_id pr1 }
    let r := ProcessManager.update_process s1.processes pr1 now
    let s2 : SystemState := { s1 with processes := r.1 }
    if r.2 then
      match pr1.parent_phase_id with
      | some phase_id => ((updatePhaseM s2 phase_id now).1, true)
      | none => (s2, true)
    else (s2, false)

/-- `ProjectManagementSystem.update_task_status(task_id, new_status,
comment)`: `changed_by` is the logger's current user.  On success the
mutated task is stored and `_cascade_update_progress` walks up through the
owning process (whose update recurses into phase and project). -/
def updateTaskStatus (s : SystemState) (task_id new_status changed_by comment : String)
    (now : Int) : SystemState × Bool :=
  match AList.get? s.tasks task_id with
  | none => (s, false)
  | some t0 =>
    let r := t0.set_status now new_status changed_by comment
    if r.2 then
      let s1 : SystemState := { s with tasks := AList.set s.tasks task_id r.1 }
      let s2 : SystemState :=
        match r.1.parent_process_id with
        | some process_id =>
          match AList.get? s1.processes process_id with
          | some _ => (updateProcessM s1 process_id now).1
          | none => s1
        | none => s1
      (s2, true)
    else (s, false)

/-! ## Notifications (src/models/notification.py)

The `metadata` dict holds untyped payload (`Dict[str, Any]`) that no
verified claim reads; it is omitted from the model. -/

structure Notification where
  id : String
  type : String
  entity_id : String
  entity_type : String
  entity_name : String
  message : String
  priority : String
  created_at : Int
  read_at : Option Int
  acknowledged_at : Option Int
  dismissed_at : Option Int
  deriving Repr, DecidableEq

/-- `Notification.__init__` (id and clock explicit). -/
def Notification.init (id : String) (now : Int)
    (notification_type entity_id entity_type entity_name message priority : String) :
    Notification :=
  { id := id, type := notification_type, entity_id := entity_id,
    entity_type := entity_type, entity_name := entity_name, message := message,
    priority := priority, created_at := now, read_at := none,
    acknowledged_at := none, dismissed_at := none }

def Notification.is_read (n : Notification) : Bool := n.read_at.isSome

def Notification.is_acknowledged (n : Notification) : Bool := n.acknowledged_at.isSome

def Notification.is_dismissed (n : Notification) : Bool := n.dismissed_at.isSome

/-- `Notification.is_active()`: neither acknowledged nor dismissed. -/
def Notification.is_active (n : Notification) : Bool :=
  !n.is_acknowledged && !n.is_dismissed

/-- `Notification.mark_as_read()`. -/
def Notification.mark_as_read (n : Notification) (now : Int) : Notification :=
  if n.read_at = none then { n with read_at := some now } else n

/-- `Notification.acknowledge()`: also auto-marks read. -/
def Notification.acknowledge (n : Notification) (now : Int) : Notification :=
  if n.acknowledged_at = none then
    ({ n with acknowledged_at := some now }).mark_as_read now
  else n

/-- `Notification.dismiss()`: also auto-marks read. -/
def Notification.dismiss (n : Notification) (now : Int) : Notification :=
  if n.dismissed_at = none then
    ({ n with dismissed_at := some now }).mark_as_read now
  else n

/-- The `NotificationManager.notifications` dict (keyed by notification id,
iterated in insertion order by `values()`). -/
abbrev NotificationMap : Type := AList Notification

/-- `NotificationManager.find_existing_notification(entity_id, type)`:
the FIRST notification in `values()` order matching the pair. -/
def NotificationManager.find_existing_notification (m : NotificationMap)
    (entity_id notification_type : String) : Option Notification :=
  (AList.values m).find?
    (fun n => n.entity_id == entity_id && n.type == notification_type)

/-- `NotificationManager.add_notification(notification)`: rejected only
when the first-found same-pair notification is still active. -/
def NotificationManager.add_notification (m : NotificationMap) (n : Notification) :
    NotificationMap × Bool :=
  match NotificationManager.find_existing_notification m n.entity_id n.type with
  | some existing =>
    if existing.is_active then (m, false)
    else (AList.set m n.id n, true)
  | none => (AList.set m n.id n, true)

/-- `NotificationManager.mark_as_read(notification_id)`. -/
def NotificationManager.mark_as_read (m : NotificationMap) (notification_id : String)
    (now : Int) : NotificationMap × Bool :=
  match AList.get? m notification_id with
  | some n => (AList.set m notification_id (n.mark_as_read now), true)
  | none => (m, false)

/-- `NotificationManager.acknowledge(notification_id)`. -/
def NotificationManager.acknowledge (m : NotificationMap) (notification_id : String)
    (now : Int) : NotificationMap × Bool :=
  match AList.get? m notification_id with
  | some n => (AList.set m notification_id (n.acknowledge now), true)
  | none => (m, false)

/-- `NotificationManager.dismiss(notification_id)`. -/
def NotificationManager.dismiss (m : NotificationMap) (notification_id : String)
    (now : Int) : NotificationMap × Bool :=
  match AList.get? m notification_id with
  | some n => (AList.set m notification_id (n.dismiss now), true)
  | none => (m, false)

/-- `NotificationManager.delete_notification(notification_id)`. -/
def NotificationManager.delete_notification (m : NotificationMap)
    (notification_id : String) : NotificationMap × Bool :=
  if (AList.get? m notification_id).isSome then
    (AList.eraseKey m notification_id, true)
  else (m, false)

/-! ## Serialization (to_dict / from_dict)

Each `<Entity>Dict` structure mirrors exactly the flat JSON object built
by `BaseEntity.to_dict` plus `_to_dict_additional`.  `from_dict` reads the
keys back; its `.get(key, default)` defaults never fire on a dict produced
by `to_dict`, which always emits every key.  (`datetime.isoformat` /
`fromisoformat` and `date.isoformat` / `fromisoformat` are inverse pairs,
modelled as the identity on the abstract instant representation.) -/

structure StatusChangeDict where
  id : String
  old_status : String
  new_status : String
  changed_at : Int
  changed_by : String
  comment : String
  deriving Repr, DecidableEq

/-- `StatusChange.to_dict()`. -/
def StatusChange.to_dict (c : StatusChange) : StatusChangeDict :=
  { id := c.id, old_status := c.old_status, new_status := c.new_status,
    changed_at := c.changed_at, changed_by := c.changed_by, comment := c.comment }

/-- `StatusChange.from_dict(data)`: the constructor call's transient
defaults are all overwritten. -/
def StatusChange.from_dict (d : StatusChangeDict) : StatusChange :=
  { id := d.id, old_status := d.old_status, new_status := d.new_status,
    changed_at := d.changed_at, changed_by := d.changed_by, comment := d.comment }

structure TaskDict where
  id : String
  name : String
  description : String
  created_at : Int
  updated_at : Int
  status : String
  status_history : List StatusChangeDict
  parent_process_id : Option String
  priority : Int
  estimated_hours : Option ℚ
  actual_hours : Option ℚ
  notes : String
  tags : List String
  deriving Repr, DecidableEq

/-- `Task.to_dict()` (base dict plus `Task._to_dict_additional`). -/
def Task.to_dict (t : Task) : TaskDict :=
  { id := t.id, name := t.name, description := t.description,
    created_at := t.created_at, updated_at := t.updated_at, status := t.status,
    status_history := t.status_history.map StatusChange.to_dict,
    parent_process_id := t.parent_process_id, priority := t.priority,
    estimated_hours := t.estimated_hours, actual_hours := t.actual_hours,
    notes := t.notes, tags := t.tags }

/-- `Task.from_dict(data)`: the seeded constructor history is replaced by
the restored one, and every other field is overwritten from the dict. -/
def Task.from_dict (d : TaskDict) : Task :=
  { id := d.id, name := d.name, description := d.description,
    created_at := d.created_at, updated_at := d.updated_at, status := d.status,
    status_history := d.status_history.map StatusChange.from_dict,
    parent_process_id := d.parent_process_id, priority := d.priority,
    estimated_hours := d.estimated_hours, actual_hours := d.actual_hours,
    notes := d.notes, tags := d.tags }

structure ProcessDict where
  id : String
  name : String
  description : String
  created_at : Int
  updated_at : Int
  assignee : String
  parent_phase_id : Option String
  start_date : Option Int
  end_date : Option Int
  estimated_hours : Option ℚ
  actual_hours : Option ℚ
  progress : ℚ
  is_progress_manual : Bool
  tasks : List String
  notes : String
  priority : Int
  deriving Repr, DecidableEq

/-- `Process.to_dict()`. -/
def Process.to_dict (p : Process) : ProcessDict :=
  { id := p.id, name := p.name, description := p.description,
    created_at := p.created_at, updated_at := p.updated_at,
    assignee := p.assignee, parent_phase_id := p.parent_phase_id,
    start_date := p.start_date, end_date := p.end_date,
    estimated_hours := p.estimated_hours, actual_hours := p.actual_hours,
    progress := p.progress, is_progress_manual := p.is_progress_manual,
    tasks := p.tasks, notes := p.notes, priority := p.priority }

/-- `Process.from_dict(data)`. -/
def Process.from_dict (d : ProcessDict) : Process :=
  { id := d.id, name := d.name, description := d.description,
    created_at := d.created_at, updated_at := d.updated_at,
    assignee := d.assignee, parent_phase_id := d.parent_phase_id,
    start_date := d.start_date, end_date := d.end_date,
    estimated_hours := d.estimated_hours, actual_hours := d.actual_hours,
    progress := d.progress, is_progress_manual := d.is_progress_manual,
    tasks := d.tasks, notes := d.notes, priority := d.priority }

structure PhaseDict where
  id : String
  name : String
  description : String
  created_at : Int
  updated_at : Int
  parent_project_id : Option String
  end_date : Option Int
  progress : ℚ
  processes : List String
  notes : String
  priority : Int
  milestone : String
  deliverables : List String
  deriving Repr, DecidableEq

/-- `Phase.to_dict()`. -/
def Phase.to_dict (ph : Phase) : PhaseDict :=
  { id := ph.id, name := ph.name, description := ph.description,
    created_at := ph.created_at, updated_at := ph.updated_at,
    parent_project_id := ph.parent_project_id, end_date := ph.end_date,
    progress := ph.progress, processes := ph.processes, notes := ph.notes,
    priority := ph.priority, milestone := ph.milestone,
    deliverables := ph.deliverables }

/-- `Phase.from_dict(data)`. -/
def Phase.from_dict (d : PhaseDict) : Phase :=
  { id := d.id, name := d.name, description := d.description,
    created_at := d.created_at, updated_at := d.updated_at,
    parent_project_id := d.parent_project_id, end_date := d.end_date,
    progress := d.progress, processes := d.processes, notes := d.notes,
    priority := d.priority, milestone := d.milestone,
    deliverables := d.deliverables }

structure ProjectDict where
  id : String
  name : String
  description : String
  created_at : Int
  updated_at : Int
  status : String
  is_status_manual : Bool
  start_date : Option Int
  end_date : Option Int
  progress : ℚ
  phases : List String
  notes : String
  priority : Int
  budget : Option ℚ
  actual_cost : Option ℚ
  manager : String
  stakeholders : List String
  tags : List String
  risk_level : Int
  deriving Repr, DecidableEq

/-- `Project.to_dict()`. -/
def Project.to_dict (proj : Project) : ProjectDict :=
  { id := proj.id, name := proj.name, description := proj.description,
    created_at := proj.created_at, updated_at := proj.updated_at,
    status := proj.status, is_status_manual := proj.is_status_manual,
    start_date := proj.start_date, end_date := proj.end_date,
    progress := proj.progress, phases := proj.phases, notes := proj.notes,
    priority := proj.priority, budget := proj.budget,
    actual_cost := proj.actual_cost, manager := proj.manager,
    stakeholders := proj.stakeholders, tags := proj.tags,
    risk_level := proj.risk_level }

/-- `Project.from_dict(data)`. -/
def Project.from_dict (d : ProjectDict) : Project :=
  { id := d.id, name := d.name, description := d.description,
    created_at := d.created_at, updated_at := d.updated_at,
    status := d.status, is_status_manual := d.is_status_manual,
    start_date := d.start_date, end_date := d.end_date,
    progress := d.progress, phases := d.phases, notes := d.notes,
    priority := d.priority, budget := d.budget,
    actual_cost := d.actual_cost, manager := d.manager,
    stakeholders := d.stakeholders, tags := d.tags,
    risk_level := d.risk_level }

/-! ## Spec-side definitions

Definitions written from the specification's words (not from the source),
used to compare the code against the claimed formulas. -/

/-- The phase-progress weight as the spec words it: "each process's weight
is its `estimated_hours` if set else 1.0".  (The source additionally maps
a set-but-zero `estimated_hours` to 1.0 via Python truthiness.) -/
def spec_weight (pr : Process) : ℚ :=
  match pr.estimated_hours with
  | some h => h
  | none => 1

/-- The phase progress exactly as claimed: weighted mean of resolvable
child progress by `spec_weight`, rounded to 1 decimal, falling back to the
simple arithmetic mean when the total weight is 0. -/
def spec_phase_progress (ph : Phase) (process_manager : AList Process) : ℚ :=
  let resolved := ph.processes.filterMap (AList.get? process_manager)
  let total := (resolved.map spec_weight).sum
  if total = 0 then
    round1 ((resolved.map Process.progress).sum / (resolved.length : ℚ))
  else
    round1 ((resolved.map (fun pr => pr.progress * spec_weight pr)).sum / total)

/-- The derived statuses of a project's resolvable phases (the list the
source's collection loop builds). -/
def derived_phase_statuses (proj : Project) (phase_manager : AList Phase) :
    List String :=
  proj.phases.filterMap
    (fun phase_id => (AList.get? phase_manager phase_id).map Phase.get_status)

/-- A manager map is well-keyed when every stored entity sits under its own
id — the invariant the entity managers maintain (`self.xs[x.id] = x`). -/
def WellKeyed {α : Type} (m : AList α) (getId : α → String) : Prop :=
  ∀ k v, AList.get? m k = some v → getId v = k

/-! ## Concrete example states used by the claim theorems -/

/-- A completed task (for the completion-ratio formula instance). -/
def taskDone : Task := { Task.init "a" 0 "A" "" with status := TaskStatus.COMPLETED }

/-- A cannot-handle task. -/
def taskStuck : Task := { Task.init "b" 0 "B" "" with status := TaskStatus.CANNOT_HANDLE }

/-- A not-started task. -/
def taskTodo : Task := Task.init "c" 0 "C" ""

/-- A process owning the three tasks above. -/
def processMixed : Process :=
  { Process.init "p" 0 "P" "" "alice" with tasks := ["a", "b", "c"] }

def tmMixed : AList Task := [("a", taskDone), ("b", taskStuck), ("c", taskTodo)]

/-- P1(progress=100, estimated_hours=10) of the weighted-phase instance. -/
def procW1 : Process :=
  { Process.init "p1" 0 "P1" "" "alice" with progress := 100, estimated_hours := some 10 }

/-- P2(progress=0, estimated_hours=30). -/
def procW2 : Process :=
  { Process.init "p2" 0 "P2" "" "alice" with progress := 0, estimated_hours := some 30 }

def phaseW : Phase := { Phase.init "f" 0 "F" "" with processes := ["p1", "p2"] }

def pmW : AList Process := [("p1", procW1), ("p2", procW2)]

/-- A process with a set-but-zero `estimated_hours` (valid per
`Process.validate`): the divergence point between the spec's weight
("if set") and the source's truthiness test. -/
def procZeroH : Process :=
  { Process.init "p3" 0 "P3" "" "alice" with progress := 100, estimated_hours := some 0 }

def procTenH : Process :=
  { Process.init "p4" 0 "P4" "" "alice" with progress := 0, estimated_hours := some 10 }

def phaseZeroH : Phase := { Phase.init "g" 0 "G" "" with processes := ["p3", "p4"] }

def pmZeroH : AList Process := [("p3", procZeroH), ("p4", procTenH)]

/-- A phase of derived status Completed (progress 100). -/
def phaseFull : Phase := { Phase.init "d1" 0 "D1" "" with progress := 100 }

/-- A phase of derived status NotStarted (progress 0). -/
def phaseEmptyP : Phase := Phase.init "d2" 0 "D2" ""

/-- A project whose phases have derived statuses [Completed, NotStarted]. -/
def projMixed : Project := { Project.init "pj" 0 "PJ" "" with phases := ["d1", "d2"] }

def phmMixed : AList Phase := [("d1", phaseFull), ("d2", phaseEmptyP)]

/-- A phase with a non-empty process-id list: the failing input of the
project-progress computation. -/
def phaseWithProc : Phase :=
  { Phase.init "h" 0 "H" "" with processes := ["zz"], progress := 50 }

def projOverPhase : Project := { Project.init "pjh" 0 "PJH" "" with phases := ["h"] }

def phmWithProc : AList Phase := [("h", phaseWithProc)]

/-- The cascade failing input: one task under one auto-progress process
under one phase under one auto-status project. -/
def taskCas : Task := { Task.init "t1" 0 "T" "" with parent_process_id := some "pr1" }

def procCas : Process :=
  { Process.init "pr1" 0 "P" "" "alice" with
    parent_phase_id := some "ph1", tasks := ["t1"], is_progress_manual := false }

def phaseCas : Phase :=
  { Phase.init "ph1" 0 "F" "" with
    parent_project_id := some "pj1", processes := ["pr1"] }

def projCas : Project := { Project.init "pj1" 0 "PJ" "" with phases := ["ph1"] }

def sysCas : SystemState :=
  { projects := [("pj1", projCas)], phases := [("ph1", phaseCas)],
    processes := [("pr1", procCas)], tasks := [("t1", taskCas)] }

/-- A phase at progress 100 with no child processes (safe to recompute). -/
def phaseSafe : Phase :=
  { Phase.init "phA" 0 "FA" "" with progress := 100, parent_project_id := some "pjA" }

/-- A manual-status project over `phaseSafe`: its progress is stale at 0. -/
def projManual : Project :=
  { Project.init "pjA" 0 "PA" "" with phases := ["phA"], is_status_manual := true }

def sysManual : SystemState :=
  { projects := [("pjA", projManual)], phases := [("phA", phaseSafe)],
    processes := [], tasks := [] }

/-- The same project in automatic-status mode (for the amended claim's
positive direction). -/
def projAuto : Project :=
  { Project.init "pjA" 0 "PA" "" with phases := ["phA"], is_status_manual := false }

def sysAuto : SystemState :=
  { projects := [("pjA", projAuto)], phases := [("phA", phaseSafe)],
    processes := [], tasks := [] }

/-- Three deadline-approaching notifications for the same entity `e1`. -/
def notifA : Notification := Notification.init "n1" 1 "期限接近" "e1" "Process" "E" "m1" "中"

def notifB : Notification := Notification.init "n2" 2 "期限接近" "e1" "Process" "E" "m2" "中"

def notifC : Notification := Notification.init "n3" 3 "期限接近" "e1" "Process" "E" "m3" "中"

/-- Step 1: insert `notifA` into the empty manager. -/
def nmStep1 : NotificationMap × Bool := NotificationManager.add_notification [] notifA

/-- Step 2: re-run the same check while `notifA` is active (deduplicated). -/
def nmStep2 : NotificationMap × Bool := NotificationManager.add_notification nmStep1.1 notifB

/-- Step 3: dismiss `notifA`. -/
def nmStep3 : NotificationMap × Bool := NotificationManager.dismiss nmStep2.1 "n1" 10

/-- Step 4: a third check inserts a fresh notification (`notifB`). -/
def nmStep4 : NotificationMap × Bool := NotificationManager.add_notification nmStep3.1 notifB

/-- Step 5: another check — the dismissed `notifA` is still the first
same-pair match, so `notifC` is inserted even though `notifB` is active. -/
def nmStep5 : NotificationMap × Bool := NotificationManager.add_notification nmStep4.1 notifC

/-! # Theorems -/

/-! ## Association-list lemmas -/

theorem AList.get?_set_self {α : Type} (m : AList α) (k : String) (v : α) :
    AList.get? (AList.set m k v) k = some v := by
  induction m with
  | nil => simp [AList.set, AList.get?]
  | cons hd tl ih =>
    obtain ⟨k1, v1⟩ := hd
    by_cases h : k1 = k
    · simp [AList.set, AList.get?, h]
    · simp [AList.set, AList.get?, h, ih]

theorem AList.get?_set_ne {α : Type} (m : AList α) (k k2 : String) (v : α)
    (h : k ≠ k2) : AList.get? (AList.set m k v) k2 = AList.get? m k2 := by
  induction m with
  | nil => simp [AList.set, AList.get?, h]
  | cons hd tl ih =>
    obtain ⟨k1, v1⟩ := hd
    by_cases h1 : k1 = k
    · subst h1
      simp [AList.set, AList.get?, h]
    · simp [AList.set, AList.get?, h1, ih]

/-! ## Rounding lemmas -/

theorem round1_nonneg {x : ℚ} (hx : 0 ≤ x) : 0 ≤ round1 x := by
  unfold round1
  apply div_nonneg _ (by norm_num)
  have h : (0 : ℤ) ≤ ⌊10 * x + 1/2⌋ := by
    apply Int.le_floor.mpr
    push_cast
    linarith
  exact_mod_cast h

theorem round1_le_100 {x : ℚ} (hx : x ≤ 100) : round1 x ≤ 100 := by
  unfold round1
  rw [div_le_iff₀ (by norm_num : (0:ℚ) < 10)]
  have h : ⌊10 * x + 1/2⌋ ≤ 1000 := by
    have h2 : (10 * x + 1/2 : ℚ) ≤ 1000 + 1/2 := by linarith
    have h3 := Int.floor_le_floor h2
    have h4 : ⌊(1000 + 1/2 : ℚ)⌋ = 1000 := by norm_num
    omega
  calc ((⌊10 * x + 1/2⌋ : ℤ) : ℚ) ≤ ((1000 : ℤ) : ℚ) := by exact_mod_cast h
    _ = 100 * 10 := by norm_num

/-! ## Serialization round-trip lemmas -/

theorem StatusChange.from_to (c : StatusChange) :
    StatusChange.from_dict (StatusChange.to_dict c) = c := rfl

theorem status_history_round_trip (l : List StatusChange) :
    (l.map StatusChange.to_dict).map StatusChange.from_dict = l := by
  induction l with
  | nil => rfl
  | cons c t ih => simp [ih, StatusChange.from_to]

/-- Claim C9: for every valid entity of each of the four kinds,
`from_dict(to_dict(e))` reproduces every field of `e` exactly — id, name,
description, timestamps, date fields, optional fields left as `none`, list
fields, and for Task the full status history. -/
theorem entity_serialization_round_trip :
    (∀ t : Task, Task.from_dict (Task.to_dict t) = t)
    ∧ (∀ p : Process, Process.from_dict (Process.to_dict p) = p)
    ∧ (∀ ph : Phase, Phase.from_dict (Phase.to_dict ph) = ph)
    ∧ (∀ proj : Project, Project.from_dict (Project.to_dict proj) = proj) := by
  refine ⟨fun t => ?_, fun p => rfl, fun ph => rfl, fun proj => rfl⟩
  have hcomp : StatusChange.from_dict ∘ StatusChange.to_dict = id :=
    funext StatusChange.from_to
  simp [Task.from_dict, Task.to_dict, hcomp]

/-- Claim C3 (code-bug evidence): `calculate_progress_from_phases` fails —
modelled as `none` — on any project owning a resolvable phase whose
process list is non-empty, because it calls `phase.get_date_range(None)`
and the `None` process manager is dereferenced for each listed process id
(`AttributeError`).  The claim says the function returns a value for every
phase shape. -/
theorem calculate_progress_from_phases_raises_on_nonempty_process_list :
    projOverPhase.calculate_progress_from_phases phmWithProc = none
    ∧ phaseWithProc.get_date_range none = none := by
  constructor
  · norm_num +decide [Project.calculate_progress_from_phases, calc_project_progress,
      projOverPhase, phmWithProc, phaseWithProc, Phase.init, Project.init,
      AList.get?, Phase.get_date_range]
  · norm_num +decide [phaseWithProc, Phase.init, Phase.get_date_range]

/-- Claim C1 (code-bug evidence): at the concrete state `sysCas` (one
completed-to-be task under an auto-progress process under a phase under an
auto-status project), `update_task_status` returns true and rolls process
and phase progress up to 100, but the owning project's progress stays
stale at 0: its fresh recompute `calculate_progress_from_phases` raises
(`none`) because the phase's process list is non-empty, the project-level
`@handle_errors` wrapper swallows the exception (the project status had
already been recomputed to Completed), and the cascade still reports
success. -/
theorem update_task_status_cascade_leaves_project_progress_stale :
    ((updateTaskStatus sysCas "t1" TaskStatus.COMPLETED "user" "" 1).2 = true)
    ∧ ((AList.get? (updateTaskStatus sysCas "t1" TaskStatus.COMPLETED "user" "" 1).1.processes
        "pr1").map Process.progress = some 100)
    ∧ ((AList.get? (updateTaskStatus sysCas "t1" TaskStatus.COMPLETED "user" "" 1).1.phases
        "ph1").map Phase.progress = some 100)
    ∧ ((AList.get? (updateTaskStatus sysCas "t1" TaskStatus.COMPLETED "user" "" 1).1.projects
        "pj1").map Project.progress = some 0)
    ∧ ((AList.get? (updateTaskStatus sysCas "t1" TaskStatus.COMPLETED "user" "" 1).1.projects
        "pj1").map Project.status = some ProjectStatus.COMPLETED)
    ∧ (projCas.calculate_progress_from_phases
        (updateTaskStatus sysCas "t1" TaskStatus.COMPLETED "user" "" 1).1.phases = none) := by
  norm_num +decide [updateTaskStatus, updateProcessM, updatePhaseM, updateProjectM,
    sysCas, taskCas, procCas, phaseCas, projCas, AList.get?, AList.set,
    Task.init, Process.init, Phase.init, Project.init,
    Task.set_status, StatusChange.init, TaskStatus.is_valid, TaskStatus.get_all_values,
    TaskStatus.COMPLETED, TaskStatus.NOT_STARTED, TaskStatus.IN_PROGRESS,
    TaskStatus.CANNOT_HANDLE,
    Process.update_progress_from_tasks, Process.set_progress,
    Process.calculate_progress_from_tasks, calc_process_progress,
    Task.is_actionable, Task.is_cannot_handle, Task.is_completed,
    Process.validate, Process.validate_additional, ProcessManager.update_process,
    Phase.update_progress_from_processes, Phase.calculate_progress_from_processes,
    calc_phase_progress, Process.progress_weight,
    Phase.validate, Phase.validate_additional, PhaseManager.update_phase,
    Project.validate, Project.validate_additional,
    Project.update_status_from_phases, Project.calculate_status_from_phases,
    Project.set_status, ProjectStatus.is_valid, ProjectStatus.get_all_values,
    ProjectStatus.NOT_STARTED, ProjectStatus.IN_PROGRESS, ProjectStatus.COMPLETED,
    ProjectStatus.SUSPENDED, ProjectStatus.ON_HOLD,
    PhaseStatus.NOT_STARTED, PhaseStatus.IN_PROGRESS, PhaseStatus.COMPLETED,
    Phase.get_status,
    Project.update_progress_from_phases, Project.calculate_progress_from_phases,
    calc_project_progress, Phase.get_date_range,
    ProjectManager.update_project, round1, pyStripEmpty]

/-- Counterexample to claim C2: at `sysManual` (a manual-status project at
progress 0 over a phase at progress 100), the orchestrator's
`update_project` returns true but leaves the project's progress at the
stale 0 even though the fresh recompute yields 100 — the
`is_status_manual` guard suppresses the progress recomputation too. -/
theorem update_project_manual_flag_blocks_progress_cex :
    ((updateProjectM sysManual "pjA" 5).2 = some true)
    ∧ ((AList.get? (updateProjectM sysManual "pjA" 5).1.projects "pjA").map
        Project.progress = some 0)
    ∧ ((AList.get? (updateProjectM sysManual "pjA" 5).1.projects "pjA").map
        Project.status = some ProjectStatus.NOT_STARTED)
    ∧ (projManual.calculate_progress_from_phases sysManual.phases = some 100) := by
  norm_num +decide [updateProjectM, sysManual, projManual, phaseSafe, Project.init,
    Phase.init, AList.get?, AList.set, Project.validate, Project.validate_additional,
    ProjectStatus.is_valid, ProjectStatus.get_all_values, ProjectStatus.NOT_STARTED,
    ProjectStatus.IN_PROGRESS, ProjectStatus.COMPLETED, ProjectStatus.SUSPENDED,
    ProjectStatus.ON_HOLD, pyStripEmpty, ProjectManager.update_project,
    Project.calculate_progress_from_phases, calc_project_progress,
    Phase.get_date_range, round1]

/-- Counterexample to claim C5: a process with a set-but-zero
`estimated_hours` (`procZeroH`).  The spec's weight (`estimated_hours` if
set else 1.0) makes the phase progress 0.0, while the source's Python
truthiness test maps the 0.0 weight to 1.0 and yields 9.1. -/
theorem phase_progress_weight_zero_hours_cex :
    phaseZeroH.calculate_progress_from_processes pmZeroH
      ≠ spec_phase_progress phaseZeroH pmZeroH
    ∧ phaseZeroH.calculate_progress_from_processes pmZeroH = 91 / 10
    ∧ spec_phase_progress phaseZeroH pmZeroH = 0
    ∧ procZeroH.validate = true := by
  norm_num +decide [Phase.calculate_progress_from_processes, calc_phase_progress,
    spec_phase_progress, spec_weight, phaseZeroH, pmZeroH, procZeroH, procTenH,
    Phase.init, Process.init, AList.get?, Process.progress_weight, round1,
    Process.validate, Process.validate_additional, pyStripEmpty,
    List.filterMap_cons, List.filterMap_nil, List.sum_cons, List.sum_nil,
    List.map_cons, List.map_nil, List.length_cons, List.length_nil]

/-- Claim C8 (code-bug evidence): from the empty notification manager, the
operation sequence add(`notifA`), dismiss(`notifA`), add(`notifB`),
add(`notifC`) — all same (entity, type) pair — succeeds at every step and
ends with TWO active notifications for the pair ("e1", 期限接近):
`find_existing_notification` only inspects the first same-pair match in
insertion order, and that first match is the dismissed `notifA`. -/
theorem notification_two_active_same_pair_reachable :
    nmStep1.2 = true ∧ nmStep3.2 = true ∧ nmStep4.2 = true ∧ nmStep5.2 = true
    ∧ ((AList.values nmStep5.1).filter
        (fun n => n.entity_id == "e1" && n.type == "期限接近" && n.is_active)).length = 2 := by
  decide

/-- Counterexample to claim C7: in the reachable state `nmStep4.1` the
active notification `notifB` shares (entity_id, type) with the incoming
`notifC`, yet `add_notification` returns true and inserts — the dedup
check sees only the first-inserted (dismissed) `notifA`. -/
theorem add_notification_active_not_first_cex :
    (∃ x ∈ AList.values nmStep4.1,
      x.entity_id = notifC.entity_id ∧ x.type = notifC.type ∧ x.is_active = true)
    ∧ (NotificationManager.add_notification nmStep4.1 notifC).2 = true := by
  decide

/-! ## Loop-accumulator lemmas for the progress formulas -/

/-- The task-counting loop of `calculate_progress_from_tasks` computes the
length of, and the completed count within, the actionable resolvable
tasks. -/
theorem task_fold_eval (tm : AList Task) (ids : List String) (a b : Nat) :
    (ids.foldl (fun (acc : Nat × Nat) task_id =>
      match AList.get? tm task_id with
      | some task =>
        if task.is_actionable then
          (acc.1 + 1, if task.is_completed then acc.2 + 1 else acc.2)
        else acc
      | none => acc) (a, b))
    = (a + ((ids.filterMap (AList.get? tm)).filter Task.is_actionable).length,
       b + ((ids.filterMap (AList.get? tm)).filter Task.is_actionable).countP
         Task.is_completed) := by
  induction ids generalizing a b with
  | nil => simp
  | cons i t ih =>
    simp only [List.foldl_cons, List.filterMap_cons]
    cases h : AList.get? tm i with
    | none => simp only [h]; rw [ih]
    | some task =>
      by_cases ha : task.is_actionable
      · by_cases hc : task.is_completed
        · simp [h, ha, hc, List.filter_cons, List.countP_cons, ih, Prod.mk.injEq] <;> omega
        · simp [h, ha, hc, List.filter_cons, List.countP_cons, ih, Prod.mk.injEq] <;> omega
      · simp [h, ha, List.filter_cons, ih, Prod.mk.injEq] <;> omega

/-- The weight-accumulating loop of `calculate_progress_from_processes`
computes the total weight of, and the weighted progress over, the
resolvable child processes. -/
theorem phase_fold_eval (pm : AList Process) (ids : List String) (a b : ℚ) :
    (ids.foldl (fun (acc : ℚ × ℚ) process_id =>
      match AList.get? pm process_id with
      | some process =>
        (acc.1 + process.progress_weight,
         acc.2 + process.progress * process.progress_weight)
      | none => acc) (a, b))
    = (a + ((ids.filterMap (AList.get? pm)).map Process.progress_weight).sum,
       b + ((ids.filterMap (AList.get? pm)).map
         (fun pr => pr.progress * pr.progress_weight)).sum) := by
  induction ids generalizing a b with
  | nil => simp
  | cons i t ih =>
    simp only [List.foldl_cons, List.filterMap_cons]
    cases h : AList.get? pm i with
    | none => simp only [h]; rw [ih]
    | some pr =>
      simp only [h, List.map_cons, List.sum_cons]
      rw [ih]
      simp only [Prod.mk.injEq]
      constructor <;> ring

/-- Claim C4: `calculate_progress_from_tasks` returns 0 when the
actionable resolvable task set A is empty and otherwise
100 × (completed in A) / |A| rounded to one decimal; in particular
a process whose tasks are [Completed, CannotHandle, NotStarted] has
progress 50.0. -/
theorem calculate_progress_from_tasks_formula :
    (∀ (p : Process) (tm : AList Task),
      p.calculate_progress_from_tasks tm =
        (if ((p.tasks.filterMap (AList.get? tm)).filter Task.is_actionable) = [] then 0
         else round1 (100 *
             (((p.tasks.filterMap (AList.get? tm)).filter Task.is_actionable).countP
               Task.is_completed : ℚ)
           / (((p.tasks.filterMap (AList.get? tm)).filter Task.is_actionable).length : ℚ))))
    ∧ processMixed.calculate_progress_from_tasks tmMixed = 50 := by
  constructor
  · intro p tm
    unfold Process.calculate_progress_from_tasks calc_process_progress
    by_cases hnil : p.tasks = []
    · simp [hnil]
    · rw [if_neg hnil, task_fold_eval]
      simp only [Nat.zero_add]
      by_cases hlen : ((p.tasks.filterMap (AList.get? tm)).filter Task.is_actionable).length = 0
      · have hA : (p.tasks.filterMap (AList.get? tm)).filter Task.is_actionable = [] :=
          List.length_eq_zero.mp hlen
        simp [hlen, hA]
      · have hAne : (p.tasks.filterMap (AList.get? tm)).filter Task.is_actionable ≠ [] := by
          intro hh
          exact hlen (by simp [hh])
        rw [if_neg hlen, if_neg hAne]
        congr 1
        ring
  · norm_num +decide [Process.calculate_progress_from_tasks, calc_process_progress,
      processMixed, tmMixed, taskDone, taskStuck, taskTodo, Task.init, Process.init,
      AList.get?, Task.is_actionable, Task.is_cannot_handle, Task.is_completed,
      TaskStatus.COMPLETED, TaskStatus.CANNOT_HANDLE, TaskStatus.NOT_STARTED, round1]

/-- Claim C5 as amended: for a phase with at least one resolvable child
process, `calculate_progress_from_processes` is the weighted mean of child
progress rounded to one decimal, where a child's weight is its
`estimated_hours` when set AND non-zero, else 1.0 (`progress_weight`),
falling back to the simple mean when the total weight is not positive;
`update_progress_from_processes` always overwrites `phase.progress` with
the computed value (no manual override); and the P1(100, 10h)/P2(0, 30h)
phase computes 25.0. -/
theorem calculate_progress_from_processes_weighted :
    (∀ (ph : Phase) (pm : AList Process),
      ph.processes.filterMap (AList.get? pm) ≠ [] →
      ph.calculate_progress_from_processes pm =
        (if 0 < ((ph.processes.filterMap (AList.get? pm)).map
            Process.progress_weight).sum then
          round1 (((ph.processes.filterMap (AList.get? pm)).map
              (fun pr => pr.progress * pr.progress_weight)).sum
            / ((ph.processes.filterMap (AList.get? pm)).map
              Process.progress_weight).sum)
        else
          round1 (((ph.processes.filterMap (AList.get? pm)).map Process.progress).sum
            / ((ph.processes.filterMap (AList.get? pm)).length : ℚ))))
    ∧ (∀ (ph : Phase) (pm : AList Process) (now : Int),
        ((ph.update_progress_from_processes pm now).1).progress
          = ph.calculate_progress_from_processes pm)
    ∧ phaseW.calculate_progress_from_processes pmW = 25 := by
  refine ⟨fun ph pm h => ?_, fun ph pm now => ?_, ?_⟩
  · unfold Phase.calculate_progress_from_processes calc_phase_progress
    have hnl : ph.processes ≠ [] := by
      intro hh
      exact h (by simp [hh])
    rw [if_neg hnl, phase_fold_eval]
    simp only [zero_add]
    by_cases hw : 0 < ((ph.processes.filterMap (AList.get? pm)).map
        Process.progress_weight).sum
    · rw [if_pos hw, if_pos hw]
    · rw [if_neg hw, if_neg hw, if_pos (List.length_pos.mpr h)]
  · unfold Phase.update_progress_from_processes
    by_cases hch : ph.progress ≠ ph.calculate_progress_from_processes pm <;> simp [hch]
  · norm_num +decide [Phase.calculate_progress_from_processes, calc_phase_progress,
      phaseW, pmW, procW1, procW2, Phase.init, Process.init, AList.get?,
      Process.progress_weight, round1]

/-- Witness for the amended claim C5 at the concrete weighted phase:
the hypothesis (a resolvable child exists) holds and the weighted-mean
formula applies. -/
theorem calculate_progress_from_processes_weighted_witness :
    phaseW.processes.filterMap (AList.get? pmW) ≠ []
    ∧ phaseW.calculate_progress_from_processes pmW =
        (if 0 < ((phaseW.processes.filterMap (AList.get? pmW)).map
            Process.progress_weight).sum then
          round1 (((phaseW.processes.filterMap (AList.get? pmW)).map
              (fun pr => pr.progress * pr.progress_weight)).sum
            / ((phaseW.processes.filterMap (AList.get? pmW)).map
              Process.progress_weight).sum)
        else
          round1 (((phaseW.processes.filterMap (AList.get? pmW)).map
            Process.progress).sum
            / ((phaseW.processes.filterMap (AList.get? pmW)).length : ℚ))) :=
  ⟨by simp [phaseW, pmW, Phase.init, AList.get?, List.filterMap_cons],
   calculate_progress_from_processes_weighted.1 phaseW pmW
     (by simp [phaseW, pmW, Phase.init, AList.get?, List.filterMap_cons])⟩

/-! ## Project status aggregation lemmas -/

/-- `calculate_status_from_phases` phrased over the collected derived
statuses: the two empty guards coincide. -/
theorem calc_status_eq (proj : Project) (phm : AList Phase) :
    proj.calculate_status_from_phases phm =
      (if derived_phase_statuses proj phm = [] then ProjectStatus.NOT_STARTED
       else if (derived_phase_statuses proj phm).all
           (fun s => s == PhaseStatus.COMPLETED) then ProjectStatus.COMPLETED
       else if (derived_phase_statuses proj phm).any
           (fun s => s == PhaseStatus.IN_PROGRESS) then ProjectStatus.IN_PROGRESS
       else if (derived_phase_statuses proj phm).all
           (fun s => s == PhaseStatus.NOT_STARTED) then ProjectStatus.NOT_STARTED
       else ProjectStatus.IN_PROGRESS) := by
  unfold Project.calculate_status_from_phases derived_phase_statuses
  by_cases hp : proj.phases = []
  · simp [hp]
  · simp [hp]

/-- The computed project status is always a valid `ProjectStatus` value. -/
theorem calc_status_from_phases_valid (proj : Project) (phm : AList Phase) :
    ProjectStatus.is_valid (proj.calculate_status_from_phases phm) = true := by
  rw [calc_status_eq]
  split_ifs <;> decide

/-- Claim C6: `calculate_status_from_phases` returns NotStarted when there
are no resolvable phases, Completed when all derived phase statuses are
Completed, InProgress when any is InProgress, NotStarted when all are
NotStarted, and InProgress for every other mix; `update_status_from_phases`
applies the result exactly when `is_status_manual` is false; and the
[Completed, NotStarted] project derives InProgress. -/
theorem calculate_status_from_phases_aggregation :
    (∀ (proj : Project) (phm : AList Phase),
      (derived_phase_statuses proj phm = [] →
        proj.calculate_status_from_phases phm = ProjectStatus.NOT_STARTED)
      ∧ ((∀ x ∈ derived_phase_statuses proj phm, x = PhaseStatus.COMPLETED) →
          derived_phase_statuses proj phm ≠ [] →
          proj.calculate_status_from_phases phm = ProjectStatus.COMPLETED)
      ∧ (PhaseStatus.IN_PROGRESS ∈ derived_phase_statuses proj phm →
          proj.calculate_status_from_phases phm = ProjectStatus.IN_PROGRESS)
      ∧ ((∀ x ∈ derived_phase_statuses proj phm, x = PhaseStatus.NOT_STARTED) →
          derived_phase_statuses proj phm ≠ [] →
          proj.calculate_status_from_phases phm = ProjectStatus.NOT_STARTED)
      ∧ (¬(∀ x ∈ derived_phase_statuses proj phm, x = PhaseStatus.COMPLETED) →
          PhaseStatus.IN_PROGRESS ∉ derived_phase_statuses proj phm →
          ¬(∀ x ∈ derived_phase_statuses proj phm, x = PhaseStatus.NOT_STARTED) →
          proj.calculate_status_from_phases phm = ProjectStatus.IN_PROGRESS)
      ∧ (∀ now : Int, ((proj.update_status_from_phases phm now).1).status =
          (if proj.is_status_manual then proj.status
           else proj.calculate_status_from_phases phm)))
    ∧ projMixed.calculate_status_from_phases phmMixed = ProjectStatus.IN_PROGRESS := by
  constructor
  · intro proj phm
    refine ⟨fun h => ?_, fun hall hne => ?_, fun hmem => ?_, fun hall hne => ?_,
      fun h1 h2 h3 => ?_, fun now => ?_⟩
    · rw [calc_status_eq, if_pos h]
    · rw [calc_status_eq, if_neg hne, if_pos ?_]
      rw [List.all_eq_true]
      intro x hx
      exact beq_iff_eq.mpr (hall x hx)
    · have hne : derived_phase_statuses proj phm ≠ [] := List.ne_nil_of_mem hmem
      rw [calc_status_eq, if_neg hne]
      have hallC : ¬((derived_phase_statuses proj phm).all
          (fun s => s == PhaseStatus.COMPLETED) = true) := by
        intro hb
        have := List.all_eq_true.mp hb _ hmem
        exact absurd this (by decide)
      rw [if_neg hallC, if_pos ?_]
      exact List.any_eq_true.mpr ⟨_, hmem, by decide⟩
    · rw [calc_status_eq, if_neg hne]
      obtain ⟨y, hy⟩ := List.exists_mem_of_ne_nil _ hne
      have hyNS := hall y hy
      have hallC : ¬((derived_phase_statuses proj phm).all
          (fun s => s == PhaseStatus.COMPLETED) = true) := by
        intro hb
        have := List.all_eq_true.mp hb y hy
        rw [hyNS] at this
        exact absurd this (by decide)
      have hany : ¬((derived_phase_statuses proj phm).any
          (fun s => s == PhaseStatus.IN_PROGRESS) = true) := by
        intro hb
        obtain ⟨z, hz, hzeq⟩ := List.any_eq_true.mp hb
        have := hall z hz
        rw [this] at hzeq
        exact absurd hzeq (by decide)
      rw [if_neg hallC, if_neg hany, if_pos ?_]
      rw [List.all_eq_true]
      intro x hx
      exact beq_iff_eq.mpr (hall x hx)
    · have hne : derived_phase_statuses proj phm ≠ [] := by
        intro hh
        exact h1 (by simp [hh])
      have hallC : ¬((derived_phase_statuses proj phm).all
          (fun s => s == PhaseStatus.COMPLETED) = true) := by
        intro hb
        exact h1 (fun x hx => beq_iff_eq.mp (List.all_eq_true.mp hb x hx))
      have hany : ¬((derived_phase_statuses proj phm).any
          (fun s => s == PhaseStatus.IN_PROGRESS) = true) := by
        intro hb
        obtain ⟨z, hz, hzeq⟩ := List.any_eq_true.mp hb
        rw [beq_iff_eq.mp hzeq] at hz
        exact h2 hz
      have hallN : ¬((derived_phase_statuses proj phm).all
          (fun s => s == PhaseStatus.NOT_STARTED) = true) := by
        intro hb
        exact h3 (fun x hx => beq_iff_eq.mp (List.all_eq_true.mp hb x hx))
      rw [calc_status_eq, if_neg hne, if_neg hallC, if_neg hany, if_neg hallN]
    · unfold Project.update_status_from_phases
      cases hman : proj.is_status_manual with
      | true => simp [hman]
      | false =>
        simp only [hman, if_true, Bool.false_eq_true, if_false]
        by_cases hch : proj.calculate_status_from_phases phm ≠ proj.status
        · rw [if_pos hch]
          unfold Project.set_status
          rw [if_pos (calc_status_from_phases_valid proj phm)]
        · rw [if_neg hch]
          simp at hch
          exact hch.symm
  · norm_num +decide [Project.calculate_status_from_phases, projMixed, phmMixed,
      phaseFull, phaseEmptyP, Phase.init, Project.init, AList.get?, Phase.get_status,
      PhaseStatus.NOT_STARTED, PhaseStatus.IN_PROGRESS, PhaseStatus.COMPLETED,
      ProjectStatus.NOT_STARTED, ProjectStatus.IN_PROGRESS, ProjectStatus.COMPLETED]

/-- Witness for claim C6 at the [Completed, NotStarted] project: the
mixed-without-InProgress fallback hypothesis holds and the derived project
status is InProgress. -/
theorem calculate_status_from_phases_aggregation_witness :
    projMixed.calculate_status_from_phases phmMixed = ProjectStatus.IN_PROGRESS := by
  have hsts : derived_phase_statuses projMixed phmMixed
      = [PhaseStatus.COMPLETED, PhaseStatus.NOT_STARTED] := by
    norm_num +decide [derived_phase_statuses, projMixed, phmMixed, phaseFull,
      phaseEmptyP, Phase.init, Project.init, AList.get?, Phase.get_status,
      PhaseStatus.NOT_STARTED, PhaseStatus.IN_PROGRESS, PhaseStatus.COMPLETED]
  exact (calculate_status_from_phases_aggregation.1 projMixed phmMixed).2.2.2.2.1
    (by rw [hsts]; decide) (by rw [hsts]; decide) (by rw [hsts]; decide)

/-! ## Orchestrator update-project lemmas -/

/-- `update_status_from_phases` touches only the status fields: phases,
progress and id are preserved. -/
theorem update_status_fields (proj : Project) (phm : AList Phase) (now : Int) :
    ((proj.update_status_from_phases phm now).1).phases = proj.phases
    ∧ ((proj.update_status_from_phases phm now).1).progress = proj.progress
    ∧ ((proj.update_status_from_phases phm now).1).id = proj.id := by
  unfold Project.update_status_from_phases Project.set_status
  cases hman : proj.is_status_manual with
  | true => simp [hman]
  | false =>
    simp only [hman]
    split_ifs <;> simp

/-- Claim C2 as amended: the orchestrator's `update_project` recomputes
project progress only when `is_status_manual` is false — the guard
suppresses progress recomputation together with status recomputation.
When the flag is true, both progress and status come out unchanged; when
it is false (and the project validates), the stored progress equals the
freshly computed `calculate_progress_from_phases` value whenever that
computation returns one. -/
theorem update_project_recomputes_progress_only_when_status_auto :
    ∀ (s : SystemState) (project_id : String) (p : Project) (now : Int),
      AList.get? s.projects project_id = some p →
      ((p.is_status_manual = true →
        (AList.get? ((updateProjectM s project_id now).1).projects project_id).map
          Project.progress = some p.progress
        ∧ (AList.get? ((updateProjectM s project_id now).1).projects project_id).map
          Project.status = some p.status)
      ∧ (p.is_status_manual = false → p.validate = true →
          ∀ q : ℚ, p.calculate_progress_from_phases s.phases = some q →
          (AList.get? ((updateProjectM s project_id now).1).projects project_id).map
            Project.progress = some q)) := by
  intro s pid p now hget
  constructor
  · intro hman
    unfold updateProjectM
    simp only [hget]
    by_cases hv : p.validate = false
    · simp [hv, hget]
    · rw [if_neg hv, if_neg (by simp [hman])]
      unfold ProjectManager.update_project
      by_cases hcond : p.validate = true ∧ (AList.get? s.projects p.id).isSome
      · rw [if_pos hcond]
        by_cases hid : p.id = pid
        · subst hid
          simp [AList.get?_set_self]
        · simp [AList.get?_set_ne _ _ _ _ hid, hget]
      · rw [if_neg hcond]
        simp [hget]
  · intro hman hv q hq
    unfold updateProjectM
    simp only [hget]
    rw [if_neg (by simp [hv]), if_pos hman]
    have hph : ((p.update_status_from_phases s.phases now).1).phases = p.phases :=
      (update_status_fields p s.phases now).1
    have hcalc1 : ((p.update_status_from_phases s.phases now).1).calculate_progress_from_phases
        s.phases = some q := by
      unfold Project.calculate_progress_from_phases at hq ⊢
      rw [hph]
      exact hq
    have hupd : ∃ (pr2 : Project) (b : Bool),
        ((p.update_status_from_phases s.phases now).1).update_progress_from_phases
          s.phases now = some (pr2, b) ∧ pr2.progress = q := by
      unfold Project.update_progress_from_phases
      simp only [hcalc1]
      by_cases hne : ((p.update_status_from_phases s.phases now).1).progress ≠ q
      · exact ⟨_, _, by rw [if_pos hne], rfl⟩
      · exact ⟨_, _, by rw [if_neg hne], rfl⟩
    obtain ⟨pr2, b, hupd, hpr2⟩ := hupd
    simp only [hupd]
    unfold ProjectManager.update_project
    split_ifs with hcond
    · by_cases hid : pr2.id = pid
      · subst hid
        simp [AList.get?_set_self, hpr2]
      · simp [AList.get?_set_ne _ _ _ _ hid, AList.get?_set_self, hpr2]
    · simp [AList.get?_set_self, hpr2]

/-- Witness for the amended claim C2: at the automatic-status project
`sysAuto` the hypotheses hold and `update_project` stores the freshly
computed progress 100; the companion manual-flag branch is witnessed on
`sysManual`, where progress and status come out unchanged. -/
theorem update_project_recomputes_progress_only_when_status_auto_witness :
    ((AList.get? ((updateProjectM sysAuto "pjA" 7).1).projects "pjA").map
      Project.progress = some 100)
    ∧ ((AList.get? ((updateProjectM sysManual "pjA" 7).1).projects "pjA").map
      Project.progress = some projManual.progress) := by
  constructor
  · exact (update_project_recomputes_progress_only_when_status_auto sysAuto "pjA"
      projAuto 7 rfl).2 rfl
      (by norm_num +decide [Project.validate, Project.validate_additional, projAuto,
        Project.init, ProjectStatus.is_valid, ProjectStatus.get_all_values,
        ProjectStatus.NOT_STARTED, ProjectStatus.IN_PROGRESS, ProjectStatus.COMPLETED,
        ProjectStatus.SUSPENDED, ProjectStatus.ON_HOLD, pyStripEmpty])
      100
      (by norm_num +decide [Project.calculate_progress_from_phases,
        calc_project_progress, projAuto, sysAuto, phaseSafe, Phase.init, Project.init,
        AList.get?, Phase.get_date_range, round1])
  · exact ((update_project_recomputes_progress_only_when_status_auto sysManual "pjA"
      projManual 7 rfl).1 rfl).1

/-- Claim C7 as amended: `add_notification` rejects (returns false, no
insertion) exactly when the FIRST existing notification with the same
(entity_id, type) pair in insertion order is still active; a dismissed or
acknowledged first-found prior does not block insertion.  Concretely:
the second run of an unchanged rule check is deduplicated (`nmStep2`
returns false and leaves the manager unchanged), and after the first
notification is dismissed a third check inserts a fresh one (`nmStep4`). -/
theorem add_notification_dedup_first_match :
    (∀ (m : NotificationMap) (n e : Notification),
      NotificationManager.find_existing_notification m n.entity_id n.type = some e →
      e.is_active = true →
      NotificationManager.add_notification m n = (m, false))
    ∧ (∀ (m : NotificationMap) (n e : Notification),
      NotificationManager.find_existing_notification m n.entity_id n.type = some e →
      e.is_active = false →
      NotificationManager.add_notification m n = (AList.set m n.id n, true))
    ∧ (∀ (m : NotificationMap) (n : Notification),
      NotificationManager.find_existing_notification m n.entity_id n.type = none →
      NotificationManager.add_notification m n = (AList.set m n.id n, true))
    ∧ (nmStep1.2 = true ∧ nmStep2 = (nmStep1.1, false) ∧ nmStep4.2 = true) := by
  refine ⟨fun m n e hf ha => ?_, fun m n e hf ha => ?_, fun m n hf => ?_, by decide⟩
  · unfold NotificationManager.add_notification
    simp [hf, ha]
  · unfold NotificationManager.add_notification
    simp [hf, ha]
  · unfold NotificationManager.add_notification
    simp [hf]

/-- Witness for the amended claim C7: with `notifA` active in the manager,
adding the same-pair `notifB` is rejected and the manager is unchanged. -/
theorem add_notification_dedup_first_match_witness :
    NotificationManager.add_notification nmStep1.1 notifB = (nmStep1.1, false) :=
  add_notification_dedup_first_match.1 nmStep1.1 notifB notifA (by decide) (by decide)

/-! ## Process-progress bound and cascade-preservation lemmas -/

/-- The computed process progress always lies in [0, 100]. -/
theorem calc_process_progress_bounds (ids : List String) (tm : AList Task) :
    0 ≤ calc_process_progress ids tm ∧ calc_process_progress ids tm ≤ 100 := by
  unfold calc_process_progress
  by_cases hnil : ids = []
  · simp [hnil]
  · rw [if_neg hnil, task_fold_eval]
    simp only [Nat.zero_add]
    by_cases hlen : ((ids.filterMap (AList.get? tm)).filter Task.is_actionable).length = 0
    · simp [hlen]
    · rw [if_neg hlen]
      have hpos : (0:ℚ) <
          (((ids.filterMap (AList.get? tm)).filter Task.is_actionable).length : ℚ) := by
        exact_mod_cast Nat.pos_of_ne_zero hlen
      have hc : ((((ids.filterMap (AList.get? tm)).filter Task.is_actionable).countP
            Task.is_completed : ℚ))
          ≤ (((ids.filterMap (AList.get? tm)).filter Task.is_actionable).length : ℚ) := by
        exact_mod_cast List.countP_le_length _
      have hx0 : 0 ≤ ((((ids.filterMap (AList.get? tm)).filter Task.is_actionable).countP
            Task.is_completed : ℚ)
          / (((ids.filterMap (AList.get? tm)).filter Task.is_actionable).length : ℚ)) * 100 := by
        apply mul_nonneg _ (by norm_num)
        exact div_nonneg (by positivity) (le_of_lt hpos)
      have hx100 : ((((ids.filterMap (AList.get? tm)).filter Task.is_actionable).countP
            Task.is_completed : ℚ)
          / (((ids.filterMap (AList.get? tm)).filter Task.is_actionable).length : ℚ)) * 100
          ≤ 100 := by
        have hdiv := (div_le_one hpos).mpr hc
        nlinarith
      exact ⟨round1_nonneg hx0, round1_le_100 hx100⟩

/-- `update_progress_from_tasks` never changes the process id. -/
theorem update_progress_from_tasks_id (p : Process) (tm : AList Task) (now : Int) :
    ((p.update_progress_from_tasks tm now).1).id = p.id := by
  unfold Process.update_progress_from_tasks Process.set_progress
  split_ifs <;> rfl

/-- The orchestrator's `update_project` never touches the process map. -/
theorem updateProjectM_processes (s : SystemState) (pid : String) (now : Int) :
    ((updateProjectM s pid now).1).processes = s.processes := by
  unfold updateProjectM
  cases h : AList.get? s.projects pid with
  | none => rfl
  | some proj0 =>
    by_cases hv : proj0.validate = false
    · simp [hv]
    · by_cases hm : proj0.is_status_manual = false
      · simp only [hv, hm, if_false, if_true, ite_true, ite_false]
        cases hu : ((proj0.update_status_from_phases s.phases
            now).1).update_progress_from_phases s.phases now with
        | none => simp [hu]
        | some pr =>
          simp only [hu]
          unfold ProjectManager.update_project
          split_ifs <;> rfl
      · simp only [hv, hm, if_false, ite_false]
        unfold ProjectManager.update_project
        split_ifs <;> rfl

/-- The orchestrator's `update_phase` never touches the process map. -/
theorem updatePhaseM_processes (s : SystemState) (pid : String) (now : Int) :
    ((updatePhaseM s pid now).1).processes = s.processes := by
  unfold updatePhaseM
  cases h : AList.get? s.phases pid with
  | none => rfl
  | some ph0 =>
    dsimp only
    split
    · split
      · rw [updateProjectM_processes]
      · rfl
    · rfl

theorem updateProcessM_manual_progress (s : SystemState) (pid2 pid : String)
    (pr : Process) (now : Int)
    (hwk : WellKeyed s.processes Process.id)
    (hpr : AList.get? s.processes pid = some pr)
    (hman : pr.is_progress_manual = true) :
    (AList.get? ((updateProcessM s pid2 now).1).processes pid).map Process.progress
      = some pr.progress := by
  unfold updateProcessM
  cases hget : AList.get? s.processes pid2 with
  | none => simp [hpr]
  | some pr0 =>
    have hid0 : pr0.id = pid2 := hwk _ _ hget
    dsimp only
    have hkey : ∀ (pr1 : Process), pr1.id = pid2 →
        (pid2 = pid → pr1.progress = pr.progress) →
        (AList.get?
          ((if (ProcessManager.update_process (AList.set s.processes pid2 pr1) pr1 now).2 = true then
              match pr1.parent_phase_id with
              | some phase_id =>
                ((updatePhaseM
                  { s with processes :=
                      (ProcessManager.update_process (AList.set s.processes pid2 pr1) pr1 now).1 }
                  phase_id now).1, true)
              | none =>
                ({ s with processes :=
                    (ProcessManager.update_process (AList.set s.processes pid2 pr1) pr1 now).1 }, true)
            else
              ({ s with processes :=
                  (ProcessManager.update_process (AList.set s.processes pid2 pr1) pr1 now).1 },
                false)).1).processes pid).map Process.progress = some pr.progress := by
      intro pr1 hid1 hprog
      have hbase : (AList.get? (AList.set s.processes pid2 pr1) pid).map Process.progress
          = some pr.progress := by
        by_cases hpid : pid2 = pid
        · subst hpid
          rw [AList.get?_set_self]
          simp [hprog rfl]
        · rw [AList.get?_set_ne _ _ _ _ hpid, hpr]
          rfl
      have hafter : (AList.get?
          (ProcessManager.update_process (AList.set s.processes pid2 pr1) pr1 now).1
            pid).map Process.progress = some pr.progress := by
        unfold ProcessManager.update_process
        split_ifs with hcond
        · by_cases hpid : pid2 = pid
          · subst hpid
            rw [hid1, AList.get?_set_self]
            have : pr1.progress = pr.progress := hprog rfl
            simp [this]
          · rw [hid1, AList.get?_set_ne _ _ _ _ hpid]
            exact hbase
        · exact hbase
      split_ifs with hr
      · cases hpar : pr1.parent_phase_id with
        | some phid =>
          dsimp only
          rw [updatePhaseM_processes]
          exact hafter
        | none => exact hafter
      · exact hafter
    by_cases hflag : pr0.is_progress_manual = false
    · rw [if_pos hflag]
      apply hkey
      · rw [update_progress_from_tasks_id]
        exact hid0
      · intro hpid
        subst hpid
        rw [hget] at hpr
        have hpr0 : pr0 = pr := Option.some.inj hpr
        rw [hpr0] at hflag
        rw [hman] at hflag
        cases hflag
    · rw [if_neg hflag]
      apply hkey
      · exact hid0
      · intro hpid
        subst hpid
        rw [hget] at hpr
        rw [Option.some.inj hpr]

/-- Claim C10: a freshly constructed `Process` (and hence one from
`ProcessManager.create_process`) starts with `is_progress_manual = true`
and `progress = 0.0`; while the flag is true `update_progress_from_tasks`
is a no-op and the orchestrator's task-status cascade leaves the process
progress unchanged; automatic roll-up begins once
`set_progress(_, is_manual := False)` switches the flag off. -/
theorem process_progress_manual_default :
    (∀ (id : String) (now : Int) (name description assignee : String),
      (Process.init id now name description assignee).is_progress_manual = true
      ∧ (Process.init id now name description assignee).progress = 0)
    ∧ (∀ (id : String) (now : Int) (name assignee description : String)
        (phase_id : Option String),
        (ProcessManager.create_process id now name assignee description
          phase_id).is_progress_manual = true
        ∧ (ProcessManager.create_process id now name assignee description
          phase_id).progress = 0)
    ∧ (∀ (p : Process) (tm : AList Task) (now : Int),
        p.is_progress_manual = true → p.update_progress_from_tasks tm now = (p, true))
    ∧ (∀ (s : SystemState) (task_id new_status changed_by comment : String)
        (now : Int) (pid : String) (pr : Process),
        WellKeyed s.processes Process.id →
        AList.get? s.processes pid = some pr →
        pr.is_progress_manual = true →
        (AList.get? ((updateTaskStatus s task_id new_status changed_by comment
          now).1).processes pid).map Process.progress = some pr.progress)
    ∧ (∀ (p : Process) (q : ℚ) (tm : AList Task) (now2 now3 : Int),
        p.is_progress_manual = true → 0 ≤ q → q ≤ 100 →
        (((p.set_progress now2 q false).1).update_progress_from_tasks tm now3).1.progress
          = p.calculate_progress_from_tasks tm) := by
  refine ⟨fun id now name description assignee => ⟨rfl, rfl⟩,
    fun id now name assignee description phase_id => ?_,
    fun p tm now hman => ?_,
    fun s task_id new_status changed_by comment now pid pr hwk hpr hman => ?_,
    fun p q tm now2 now3 hman h0 h100 => ?_⟩
  · unfold ProcessManager.create_process
    cases phase_id <;> exact ⟨rfl, rfl⟩
  · unfold Process.update_progress_from_tasks
    rw [if_neg (by simp [hman])]
  · unfold updateTaskStatus
    cases hget : AList.get? s.tasks task_id with
    | none => simp [hpr]
    | some t0 =>
      dsimp only
      by_cases hok : (t0.set_status now new_status changed_by comment).2 = true
      · rw [if_pos hok]
        cases hpar : (t0.set_status now new_status changed_by
            comment).1.parent_process_id with
        | some pid2 =>
          dsimp only
          cases hget2 : AList.get? s.processes pid2 with
          | some pr2 =>
            exact updateProcessM_manual_progress
              { projects := s.projects, phases := s.phases, processes := s.processes,
                tasks := AList.set s.tasks task_id
                  (t0.set_status now new_status changed_by comment).1 }
              pid2 pid pr now hwk hpr hman
          | none => simp [hpr]
        | none =>
          dsimp only
          simp [hpr]
      · rw [if_neg hok]
        simp [hpr]
  · have hset : (p.set_progress now2 q false).1
        = { p with progress := q, is_progress_manual := false, updated_at := now2 } := by
      unfold Process.set_progress
      rw [if_pos ⟨h0, h100⟩]
    rw [hset]
    unfold Process.update_progress_from_tasks
    rw [if_pos rfl]
    unfold Process.set_progress
    rw [if_pos ⟨(calc_process_progress_bounds _ _).1, (calc_process_progress_bounds _ _).2⟩]
    rfl

/-- Witness for claim C10: the mixed-task process (flag initially true)
switched to automatic mode at 30% recomputes 50.0 from its tasks. -/
theorem process_progress_manual_default_witness :
    ((processMixed.set_progress 1 30 false).1.update_progress_from_tasks tmMixed 2).1.progress
      = processMixed.calculate_progress_from_tasks tmMixed :=
  process_progress_manual_default.2.2.2.2 processMixed 30 tmMixed 1 2 rfl
    (by norm_num) (by norm_num)

end PM
